import Mathlib

/-!
Shallow embedding of `lib/google.js` of the `in-app-purchase` package:
receipt signature validation against live/sandbox public keys and
purchase-status reconciliation against the Google Play publisher API.

External collaborators (the HTTP transport `request`, `fs`, the Node
`crypto` verifier and the built-in `JSON.parse`) are modelled as oracle
parameters supplied per call; the JavaScript built-ins `JSON.stringify`
and `String.prototype.replace` used by the module are modelled as
executable Lean functions on a JSON value type.
-/

set_option autoImplicit false

namespace Google

/-- Model of a JavaScript JSON-like value.  Objects keep their fields as an
ordered list of key/value pairs, matching JavaScript property insertion
order, which is also the order `JSON.stringify` emits. -/
inductive Json where
  | null
  | bool (b : Bool)
  | num (n : Int)
  | str (s : String)
  | arr (elems : List Json)
  | obj (fields : List (String × Json))

/-- JavaScript truthiness of a `Json` value (`NaN` and floats are outside
the modelled domain). -/
def Json.truthy : Json → Bool
  | .null => false
  | .bool b => b
  | .num n => n != 0
  | .str s => s != ""
  | .arr _ => true
  | .obj _ => true

/-- Whether `typeof v === 'object'` holds in JavaScript: true for plain
objects, arrays and `null`. -/
def Json.typeofObject : Json → Bool
  | .null => true
  | .arr _ => true
  | .obj _ => true
  | _ => false

/-- Escaping of one character inside a JSON string literal, as performed by
`JSON.stringify` (quote, backslash and the common control characters; other
control characters are outside the modelled domain). -/
def escapeJsonChar (c : Char) : String :=
  if c = '"' then "\\\""
  else if c = '\\' then "\\\\"
  else if c = '\n' then "\\n"
  else if c = '\t' then "\\t"
  else if c = '\r' then "\\r"
  else String.singleton c

/-- Escaping of a whole string for a JSON string literal. -/
def escapeJsonString (s : String) : String :=
  s.data.foldl (fun acc c => acc ++ escapeJsonChar c) ""

mutual

/-- Model of `JSON.stringify` on the modelled `Json` fragment.  Object
members are emitted in their stored (insertion) order. -/
def stringify : Json → String
  | .null => "null"
  | .bool b => cond b "true" "false"
  | .num n => toString n
  | .str s => "\"" ++ escapeJsonString s ++ "\""
  | .arr es => "[" ++ stringifyElems es ++ "]"
  | .obj fs => "\x7b" ++ stringifyMembers fs ++ "\x7d"

/-- Comma-separated rendering of array elements for `stringify`. -/
def stringifyElems : List Json → String
  | [] => ""
  | [x] => stringify x
  | x :: y :: xs => stringify x ++ "," ++ stringifyElems (y :: xs)

/-- Comma-separated rendering of object members for `stringify`. -/
def stringifyMembers : List (String × Json) → String
  | [] => ""
  | [kv] => "\"" ++ escapeJsonString kv.1 ++ "\":" ++ stringify kv.2
  | kv :: kv2 :: rest =>
      "\"" ++ escapeJsonString kv.1 ++ "\":" ++ stringify kv.2 ++ ","
        ++ stringifyMembers (kv2 :: rest)

end

/-- Model of `.replace(/\//g, '\\/')`: every `/` becomes `\/`
(google.js line 142). -/
def escapeSlashes (s : String) : String :=
  String.mk (s.data.foldr (fun c acc => if c = '/' then '\\' :: '/' :: acc else c :: acc) [])

/-- Canonical string form of object-typed receipt data:
`JSON.stringify(receipt.data).replace(/\//g, '\\/')` (google.js line 142). -/
def canonicalizeJson (j : Json) : String :=
  escapeSlashes (stringify j)

/-- The in-place update google.js performs on `receipt.data` (lines 140-144):
object-typed data is replaced by its canonical string, other data is left
untouched. -/
def canonicalizeData (j : Json) : Json :=
  if j.typeofObject then .str (canonicalizeJson j) else j

/-- Truthiness of a possibly-absent JavaScript string: `undefined` and the
empty string are falsy. -/
def strTruthy : Option String → Bool
  | none => false
  | some s => s != ""

/-- Modelled from the spec: `constants.js` is required by google.js but is
not under `src/`; the spec (§3, §6) gives the validation status enum as
`SUCCESS | FAILURE`. -/
inductive Validation where
  | SUCCESS
  | FAILURE
deriving DecidableEq

/-- Modelled from the spec: `constants.SERVICES.GOOGLE`, the service tag the
reconciler writes into the payload (spec §8 scenario `service:'GOOGLE'`). -/
def SERVICE_GOOGLE : String := "google"

/-- A receipt object: `{ data: ..., signature: ... }` (google.js lines
117-121).  `data` may be any JSON-like value; `signature` is a string. -/
structure Receipt where
  data : Json
  signature : String

/-- The first argument google.js's `validatePurchase` receives: either a
non-object primitive (rejected at line 126, `prim` standing for its string
rendering) or a receipt object. -/
inductive ReceiptArg where
  | notObject (prim : String)
  | receiptObj (r : Receipt)

/-- The JSON-decoded receipt body, restricted to the fields google.js reads
or writes, each `Option` to model an absent (`undefined`) property. -/
structure Payload where
  packageName : String
  productId : String
  purchaseToken : String
  status : Option Validation
  service : Option String
  autoRenewing : Option Bool
  expirationTime : Option String
deriving DecidableEq

/-- The `{status, message}` envelope google.js pairs with every error
callback. -/
structure Envelope where
  status : Validation
  message : String
deriving DecidableEq

/-- What the final callback received: `cb(null, data)` on success or
`cb(error, envelope)` on failure (`err` is the `Error`'s message). -/
inductive CbOut where
  | success (payload : Payload)
  | failure (err : String) (envlp : Envelope)
deriving DecidableEq

/-- How a call terminated: either the callback was invoked, or an exception
escaped across the asynchronous boundary (never caught by google.js). -/
inductive Outcome where
  | thrown (exnMsg : String)
  | called (out : CbOut)
deriving DecidableEq

/-- Whether an `Outcome` is an escaped exception. -/
def Outcome.isThrown : Outcome → Bool
  | .thrown _ => true
  | .called _ => false

/-- A JavaScript value found in a response body's `error` property: either a
string or an object with an optional string `message` property. -/
inductive ErrVal where
  | strVal (s : String)
  | objVal (message : Option String)
deriving DecidableEq

/-- Model of `body.error.message || body.error` coerced to an `Error`
message (google.js lines 297 and 329).  A string error has no `.message`,
so the string itself is taken; an object error with a falsy or absent
`message` falls back to the object, whose `Error`-message rendering is
`[object Object]`. -/
def ErrVal.toMessage : ErrVal → String
  | .strVal s => s
  | .objVal (some m) => if m = "" then "[object Object]" else m
  | .objVal none => "[object Object]"

/-- Model of `parsedBody.error` used directly as an `Error` message and as
`result.message` (google.js lines 448-451): the JavaScript string coercion
of the value. -/
def ErrVal.rawMessage : ErrVal → String
  | .strVal s => s
  | .objVal _ => "[object Object]"

/-- Parsed JSON body of a purchase-status lookup, restricted to the
properties google.js reads: the `error` property (present iff
`'error' in body`), `autoRenewing` and `expiryTimeMillis`. -/
structure PurchaseBody where
  errorField : Option ErrVal
  autoRenewing : Option Bool
  expiryTimeMillis : Option String
deriving DecidableEq

/-- The `body` argument the transport hands to a lookup callback: a parsed
JSON object (the `json: true` option), or a non-JSON body left as a raw
string. -/
inductive BodyVal where
  | jsonObj (b : PurchaseBody)
  | raw (s : String)
deriving DecidableEq

/-- One `(error, response, body)` triple from the transport for a
`getPurchaseInfo` call; `error` is the transport error's message (`none`
for a successful transport), `body` is `none` when absent (`undefined`). -/
structure HttpResult where
  error : Option String
  body : Option BodyVal
deriving DecidableEq

/-- The raw body of a `refreshGoogleTokens` response as seen by
`JSON.parse`: either it parses to an object with an optional `error`
property and optional `access_token`, or it does not parse at all. -/
inductive TokenBody where
  | parses (errorField : Option ErrVal) (accessToken : Option String)
  | noParse (raw : String)
deriving DecidableEq

/-- One `(error, res, body)` triple from the transport for a
`refreshGoogleTokens` call. -/
structure RefreshHttp where
  error : Option String
  body : TokenBody
deriving DecidableEq

/-- The module-level mutable state of google.js that validation reads:
`publicKeyMap`, the `checkPurchaseState` flag and
`googleTokenMap.accessToken`. -/
structure GoogleState where
  publicKeyLive : Option String
  publicKeySandbox : Option String
  checkPurchaseState : Bool
  accessToken : Option String
deriving DecidableEq

/-- The `options` argument: google.js only reads `options.subscription`. -/
structure Options where
  subscription : Bool
deriving DecidableEq

/-- Behaviour of the remote endpoints during one reconciliation: the
response to the first `getPurchaseInfo`, to `refreshGoogleTokens`, and to
the recheck `getPurchaseInfo`. -/
structure IapEnv where
  lookup1 : HttpResult
  refreshResult : RefreshHttp
  lookup2 : HttpResult
deriving DecidableEq

/-- Result of one run of `checkPurchaseStatus`: the terminal outcome, the
number of `getPurchaseInfo` calls made, the number of
`refreshGoogleTokens` calls made, and the access token left in
`googleTokenMap` (the call counts are ghost instrumentation of the
embedding). -/
structure RunResult where
  outcome : Outcome
  lookups : Nat
  refreshes : Nat
  newAccessToken : Option String
deriving DecidableEq

/-- The payload after `data.service = constants.SERVICES.GOOGLE`
(google.js line 222). -/
def serviceTagged (p : Payload) : Payload :=
  { p with service := some SERVICE_GOOGLE }

/-- Possible effects of the `getSubInfo` task (google.js lines 237-264). -/
inductive SubInfoStep where
  | throwExn (msg : String)
  | failed
  | succeeded (data : Payload)
deriving DecidableEq

/-- The `getSubInfo` task (google.js lines 237-264).  `error` truthy short
circuits `'error' in body`, so a transport error always sets the state to
`FAILURE`; with no transport error, `'error' in body` throws a `TypeError`
when `body` is `undefined` or a non-object, fails on an `error` property,
and otherwise succeeds, copying `autoRenewing`/`expiryTimeMillis` into the
payload when validating a subscription. -/
def getSubInfoStep (isSub : Bool) (data : Payload) (res : HttpResult) : SubInfoStep :=
  match res.error with
  | some _ => .failed
  | none =>
    match res.body with
    | none => .throwExn "TypeError: cannot use in operator on undefined"
    | some (.raw _) => .throwExn "TypeError: cannot use in operator on a non-object"
    | some (.jsonObj b) =>
      match b.errorField with
      | some _ => .failed
      | none =>
        .succeeded (if isSub then
          { data with autoRenewing := b.autoRenewing, expirationTime := b.expiryTimeMillis }
        else data)

/-- Possible effects of the refresh branch of the `validate` task
(google.js lines 276-315). -/
inductive RefreshStep where
  | throwExn (msg : String)
  | aborted (errMsg : String)
  | refreshed (newToken : Option String)
deriving DecidableEq

/-- The `refreshGoogleTokens` callback inside the `validate` task
(google.js lines 280-314): a transport error aborts the whole
reconciliation through `cb` directly; `JSON.parse` throws on a non-JSON
body; an `error` property in the parsed body aborts with
`error.message || error`; otherwise the new access token is stored and the
state moves to `SUCCESS`. -/
def refreshStep (res : RefreshHttp) : RefreshStep :=
  match res.error with
  | some e => .aborted e
  | none =>
    match res.body with
    | .noParse _ => .throwExn "SyntaxError: JSON.parse on a non-JSON token response"
    | .parses (some v) _ => .aborted v.toMessage
    | .parses none tok => .refreshed tok

/-- Possible effects of the `recheck` task (google.js lines 319-350). -/
inductive RecheckStep where
  | throwExn (msg : String)
  | failed (errMsg : String)
  | succeeded (data : Payload)
deriving DecidableEq

/-- The `recheck` task's lookup callback (google.js lines 324-344).  On the
failure branch line 329 evaluates `body.error.message` before anything
else, so it throws a `TypeError` whenever `body` is `undefined`, a
non-object, or lacks an `error` property — including when only the
transport `error` made the branch taken.  Otherwise the branch fails with
the transport error if present, else with `body.error.message || body.error`;
the success branch copies the subscription fields. -/
def recheckStep (isSub : Bool) (data : Payload) (res : HttpResult) : RecheckStep :=
  match res.error with
  | some e =>
    match res.body with
    | none => .throwExn "TypeError: cannot read property error of undefined body"
    | some (.raw _) => .throwExn "TypeError: cannot read property message of undefined"
    | some (.jsonObj b) =>
      match b.errorField with
      | none => .throwExn "TypeError: cannot read property message of undefined"
      | some _ => .failed e
  | none =>
    match res.body with
    | none => .throwExn "TypeError: cannot use in operator on undefined"
    | some (.raw _) => .throwExn "TypeError: cannot use in operator on a non-object"
    | some (.jsonObj b) =>
      match b.errorField with
      | some v => .failed v.toMessage
      | none =>
        .succeeded (if isSub then
          { data with autoRenewing := b.autoRenewing, expirationTime := b.expiryTimeMillis }
        else data)

/-- The `checkPurchaseStatus` reconciler (google.js lines 220-370).

The payload is first tagged with the service constant (line 222).  When
`checkPurchaseState` is false the reconciler passes the tagged payload back
with no remote call (lines 224-226).  Otherwise the three tasks
`getSubInfo`, `validate`, `recheck` run under `async.series`.

Modelled from the spec: `lib/async.js` is required by google.js but is not
under `src/`.  Per the spec (§4.4), a task finishing with
`next(null, FAILURE)` feeds a skip sentinel forward that ends the sequence
(callers read it as "don't look the purchase up again"), a task finishing
with `next(error)` ends the sequence with that error, and a plain `next()`
runs the following task; `done(error)` then reports `cb(error, {status:
FAILURE, message: error.message})` or `cb(null, data)` (lines 352-361).
The `validate` task's refresh-error branches call `cb` directly, bypassing
the series (lines 285-301). -/
def checkPurchaseStatus (st : GoogleState) (data0 : Payload) (opts : Options) (env : IapEnv) : RunResult :=
  if st.checkPurchaseState = false then
    ⟨.called (.success (serviceTagged data0)), 0, 0, st.accessToken⟩
  else
    match getSubInfoStep opts.subscription (serviceTagged data0) env.lookup1 with
    | .throwExn m => ⟨.thrown m, 1, 0, st.accessToken⟩
    | .succeeded data1 =>
      ⟨.called (.success data1), 1, 0, st.accessToken⟩
    | .failed =>
      match refreshStep env.refreshResult with
      | .throwExn m => ⟨.thrown m, 1, 1, st.accessToken⟩
      | .aborted e => ⟨.called (.failure e ⟨.FAILURE, e⟩), 1, 1, st.accessToken⟩
      | .refreshed tok =>
        match recheckStep opts.subscription (serviceTagged data0) env.lookup2 with
        | .throwExn m => ⟨.thrown m, 2, 1, tok⟩
        | .failed e => ⟨.called (.failure e ⟨.FAILURE, e⟩), 2, 1, tok⟩
        | .succeeded data2 => ⟨.called (.success data2), 2, 1, tok⟩

/-- Accumulator for `chunkSplit`: cut a character list into runs of `len`
characters (`n` is the remaining capacity of the current run, `acc` the
current run reversed). -/
def chunksAux (len : Nat) : List Char → Nat → List Char → List (List Char)
  | [], _, acc => [acc.reverse]
  | c :: rest, 0, acc => acc.reverse :: chunksAux len rest (len - 1) [c]
  | c :: rest, Nat.succ n, acc => chunksAux len rest n (c :: acc)

/-- Model of `chunkSplit(str, len, end)` (google.js lines 409-416):
`str.match(new RegExp('.\x7b0,' + len + '\x7d', 'g')).join(end)`.  The
global match yields the consecutive `len`-sized chunks of the string plus a
final empty match, so the join ends with one trailing separator; on the
empty string the match is a single empty string and the join is empty.
`len < 1` (which the source answers with `false`) and strings containing
newline characters (which `.` does not match) are outside the modelled
domain; google.js only calls this with `len = 64` on single-line base64
key material. -/
def chunkSplit (s : String) (len : Nat) (sep : String) : String :=
  if s.data = [] then ""
  else String.intercalate sep ((chunksAux len s.data len []).map String.mk) ++ sep

/-- Model of `getPublicKey` (google.js lines 372-379): a falsy key gives
`null`, otherwise the unwrapped base64 material is split into 64-character
lines between the PEM header and footer markers. -/
def getPublicKey (publicKey : Option String) : Option String :=
  if strTruthy publicKey = false then none
  else
    match publicKey with
    | none => none
    | some k =>
      some ("-----BEGIN PUBLIC KEY-----\n" ++ chunkSplit k 64 "\n" ++ "-----END PUBLIC KEY-----\n")

/-- Behaviour of `crypto.createVerify('SHA1').verify(pkey, signature,
'base64')`: either a boolean verdict or a thrown exception (malformed key
or signature encoding), which google.js catches. -/
inductive VerifyOutcome where
  | ok (valid : Bool)
  | exn (msg : String)
deriving DecidableEq

/-- Oracles for the external collaborators of a `validatePurchase` call:
the crypto verifier (`verify pem data signature`), the built-in
`JSON.parse` on the receipt data (`none` models a thrown `SyntaxError`),
and the remote endpoints' behaviour. -/
structure ValidateEnv where
  verify : String → String → String → VerifyOutcome
  jsonParse : String → Option Payload
  iap : IapEnv

/-- Result of a `validatePublicKey` call (google.js lines 381-407): a
thrown exception, `cb(error)`, or `cb(null, data)`. -/
inductive VpkResult where
  | thrown (msg : String)
  | errored (e : String)
  | verified (p : Payload)
deriving DecidableEq

/-- Model of `validatePublicKey` (google.js lines 381-407).  Checks run in
source order: falsy `receipt.data`, falsy `pkey`, non-string
`receipt.data`; then the crypto verifier runs inside `try/catch`.  A `true`
verdict feeds `receipt.data` to `JSON.parse` — outside any `try` — and
returns the decoded payload with `status = SUCCESS`; a `false` verdict is
the distinct `failed to validate purchase` error. -/
def validatePublicKey (r : Receipt) (pkey : Option String) (env : ValidateEnv) : VpkResult :=
  if r.data.truthy = false then .errored "missing receipt data"
  else if strTruthy pkey = false then .errored "missing public key"
  else
    match r.data with
    | .str s =>
      match env.verify (pkey.getD "") s r.signature with
      | .exn m => .errored m
      | .ok false => .errored "failed to validate purchase"
      | .ok true =>
        match env.jsonParse s with
        | none => .thrown "SyntaxError: JSON.parse on receipt data"
        | some p => .verified { p with status := some .SUCCESS }
    | _ => .errored "receipt.data must be a string"

/-- The receipt after the in-place canonicalization of `receipt.data`
(google.js lines 140-144). -/
def canonReceipt (r : Receipt) : Receipt :=
  { r with data := canonicalizeData r.data }

/-- The public key tried first by `validatePurchase` (google.js lines
146-152): the dynamically fed key when truthy, else the live anchor. -/
def firstPubkey (st : GoogleState) (dPubkey : Option String) : Option String :=
  if strTruthy dPubkey then dPubkey else st.publicKeyLive

/-- Result of one `validatePurchase` call: the outcome and ghost
instrumentation — remote call counts, whether the sandbox anchor was
consulted, and the receipt object as the caller sees it after the call
(google.js mutates it in place). -/
structure ValidateResult where
  outcome : Outcome
  lookups : Nat
  refreshes : Nat
  sandboxConsulted : Bool
  receiptAfter : ReceiptArg

/-- Model of the exported `validatePurchase` (google.js lines 122-191).
Non-object receipts and receipts with falsy `data` or `signature` are
rejected before any crypto work; object-typed `data` is canonicalized in
place; verification is attempted against the dynamic override or the live
anchor, falling back once to the sandbox anchor when one is configured,
with the FIRST attempt's error reported on total failure; any successful
verification hands the payload to `checkPurchaseStatus`. -/
def validatePurchase (st : GoogleState) (dPubkey : Option String) (arg : ReceiptArg) (opts : Options) (env : ValidateEnv) : ValidateResult :=
  match arg with
  | .notObject prim =>
    ⟨.called (.failure ("malformed receipt: " ++ prim) ⟨.FAILURE, "Malformed receipt"⟩),
      0, 0, false, arg⟩
  | .receiptObj r0 =>
    if r0.data.truthy = false ∨ r0.signature = "" then
      ⟨.called (.failure
          ("missing receipt data:\n"
            ++ stringify (.obj [("data", r0.data), ("signature", .str r0.signature)]))
          ⟨.FAILURE, "Malformed receipt"⟩),
        0, 0, false, arg⟩
    else
      match validatePublicKey (canonReceipt r0) (getPublicKey (firstPubkey st dPubkey)) env with
      | .thrown m => ⟨.thrown m, 0, 0, false, .receiptObj (canonReceipt r0)⟩
      | .verified p =>
        let run := checkPurchaseStatus st p opts env.iap
        ⟨run.outcome, run.lookups, run.refreshes, false, .receiptObj (canonReceipt r0)⟩
      | .errored e =>
        if strTruthy st.publicKeySandbox = false then
          ⟨.called (.failure e ⟨.FAILURE, e⟩), 0, 0, false, .receiptObj (canonReceipt r0)⟩
        else
          match validatePublicKey (canonReceipt r0) (getPublicKey st.publicKeySandbox) env with
          | .thrown m => ⟨.thrown m, 0, 0, true, .receiptObj (canonReceipt r0)⟩
          | .errored _ =>
            ⟨.called (.failure e ⟨.FAILURE, e⟩), 0, 0, true, .receiptObj (canonReceipt r0)⟩
          | .verified p =>
            let run := checkPurchaseStatus st p opts env.iap
            ⟨run.outcome, run.lookups, run.refreshes, true, .receiptObj (canonReceipt r0)⟩

/-- What the exported `refreshToken`'s callback received. -/
inductive RTOut where
  | tokenOk (accessToken : Option String)
  | failed (err : String) (envlp : Envelope)
deriving DecidableEq

/-- How a `refreshToken` call terminated. -/
inductive RTOutcome where
  | thrown (exnMsg : String)
  | called (out : RTOut)
deriving DecidableEq

/-- Whether an `RTOutcome` is an escaped exception. -/
def RTOutcome.isThrown : RTOutcome → Bool
  | .thrown _ => true
  | .called _ => false

/-- Result of one `refreshToken` call: the outcome and the access token
left in `googleTokenMap`. -/
structure RefreshTokenResult where
  outcome : RTOutcome
  newAccessToken : Option String
deriving DecidableEq

/-- Model of the exported `refreshToken` (google.js lines 431-458).  With
an incomplete credential tuple it fails fast with a configuration error
(the `refres_token` typo is the source's); a transport error is passed
through; `JSON.parse` throws on a non-JSON body; an `error` property in the
parsed body is surfaced raw; otherwise the new access token is stored and
the parsed body returned. -/
def refreshToken (st : GoogleState) (res : RefreshHttp) : RefreshTokenResult :=
  if st.checkPurchaseState = false then
    ⟨.called (.failed "missing google play api info"
        ⟨.FAILURE, "client_id, client_secret, access_token and refres_token should be provided"⟩),
      st.accessToken⟩
  else
    match res.error with
    | some e => ⟨.called (.failed e ⟨.FAILURE, e⟩), st.accessToken⟩
    | none =>
      match res.body with
      | .noParse _ => ⟨.thrown "SyntaxError: JSON.parse on a non-JSON token response", st.accessToken⟩
      | .parses (some v) _ => ⟨.called (.failed v.rawMessage ⟨.FAILURE, v.rawMessage⟩), st.accessToken⟩
      | .parses none tok => ⟨.called (.tokenOk tok), tok⟩

/-- Drop the maximal run of characters satisfying `p` from the end of a
string. -/
def dropTrailing (p : Char → Bool) (s : String) : String :=
  String.mk (s.data.reverse.dropWhile p).reverse

/-- The character class of the JavaScript `\s` regex escape, restricted to
its ASCII members (the Unicode space characters are outside the modelled
domain). -/
def isJsWhitespace (c : Char) : Bool :=
  c = ' ' || c = '\t' || c = '\n' || c = '\r' || c = Char.ofNat 11 || c = Char.ofNat 12

/-- Model of `.replace(/\s+$/, '')` applied to key file content
(google.js line 111): strip all trailing whitespace. -/
def stripFileKey (s : String) : String :=
  dropTrailing isJsWhitespace s

/-- Model of `.replace(/s+$/, '')` applied to environment-variable key
material (google.js lines 96 and 99): strip only trailing literal `s`
characters. -/
def stripEnvKey (s : String) : String :=
  dropTrailing (fun c => c = 's') s

/-- The sources `setup` can draw trust-anchor key material from:
`configPresent` is whether `readConfig` left a non-null `config`;
the two `googlePublicKeyStr*` fields are the config strings;
`googlePublicKeyPath` is the configured key directory;
`envSandbox`/`envLive` are the `GOOGLE_IAB_PUBLICKEY_*` environment
variables; `fileSandbox`/`fileLive` are the contents of
`googlePublicKeyPath + 'iap-sandbox'` / `+ 'iap-live'`, with `none`
modelling a read error (missing file), which `setup` silently ignores. -/
structure SetupSources where
  configPresent : Bool
  googlePublicKeyStrSandbox : Option String
  googlePublicKeyStrLive : Option String
  googlePublicKeyPath : Option String
  envSandbox : Option String
  envLive : Option String
  fileSandbox : Option String
  fileLive : Option String
deriving DecidableEq

/-- The module-level `publicKeyMap` of google.js. -/
structure PublicKeyMap where
  sandbox : Option String
  live : Option String
deriving DecidableEq

/-- Model of the exported `setup` (google.js lines 81-115), as a function
from the available sources and the prior `publicKeyMap` to the updated
map.  If the config holds any `googlePublicKeyStr*` string, only those
strings are consulted and `setup` returns; else if no config or no
`googlePublicKeyPath` is present, the environment variables are consulted
and `setup` returns; else both key files are read in the `keyPathMap`
insertion order (sandbox then live), silently skipping files that fail to
read. -/
def setup (src : SetupSources) (m : PublicKeyMap) : PublicKeyMap :=
  if src.configPresent
      && (strTruthy src.googlePublicKeyStrSandbox || strTruthy src.googlePublicKeyStrLive) then
    let m1 := if src.configPresent && strTruthy src.googlePublicKeyStrSandbox then
        { m with sandbox := src.googlePublicKeyStrSandbox } else m
    if src.configPresent && strTruthy src.googlePublicKeyStrLive then
      { m1 with live := src.googlePublicKeyStrLive } else m1
  else if !src.configPresent || !strTruthy src.googlePublicKeyPath then
    let m1 := match src.envSandbox with
      | some v => if v != "" then { m with sandbox := some (stripEnvKey v) } else m
      | none => m
    match src.envLive with
    | some v => if v != "" then { m1 with live := some (stripEnvKey v) } else m1
    | none => m1
  else
    let m1 := match src.fileSandbox with
      | some content => { m with sandbox := some (stripFileKey content) }
      | none => m
    match src.fileLive with
    | some content => { m1 with live := some (stripFileKey content) }
    | none => m1

/-- The three source classes `setup` can resolve key material from. -/
inductive SourceClass where
  | strings
  | files
  | envvars
deriving DecidableEq

/-- Modelled from the amended C6 wording: which single source class `setup`
uses for the whole store — explicit config strings when any is present,
else key files when a path is configured, else environment variables. -/
def chooseClass (src : SetupSources) : SourceClass :=
  if src.configPresent
      && (strTruthy src.googlePublicKeyStrSandbox || strTruthy src.googlePublicKeyStrLive) then
    .strings
  else if src.configPresent && strTruthy src.googlePublicKeyPath then
    .files
  else
    .envvars

/-- Modelled from the amended C6 wording: within the chosen class, each
environment's key is set only if that environment's source is present
(truthy for strings and environment variables, readable for files),
otherwise left untouched; no other class is consulted. -/
def applyClass (cls : SourceClass) (src : SetupSources) (m : PublicKeyMap) : PublicKeyMap :=
  match cls with
  | .strings =>
    { sandbox :=
        if strTruthy src.googlePublicKeyStrSandbox then src.googlePublicKeyStrSandbox
        else m.sandbox
      live :=
        if strTruthy src.googlePublicKeyStrLive then src.googlePublicKeyStrLive
        else m.live }
  | .envvars =>
    { sandbox :=
        match src.envSandbox with
        | some v => if v != "" then some (stripEnvKey v) else m.sandbox
        | none => m.sandbox
      live :=
        match src.envLive with
        | some v => if v != "" then some (stripEnvKey v) else m.live
        | none => m.live }
  | .files =>
    { sandbox :=
        match src.fileSandbox with
        | some content => some (stripFileKey content)
        | none => m.sandbox
      live :=
        match src.fileLive with
        | some content => some (stripFileKey content)
        | none => m.live }

/-- A purchase-status lookup response that takes the success path of
`getSubInfo`: no transport error, a JSON-object body, no `error`
property. -/
def lookupOk (res : HttpResult) : Prop :=
  res.error = none ∧ ∃ b, res.body = some (.jsonObj b) ∧ b.errorField = none

/-- A lookup response whose body `getSubInfo` can test with `'error' in
body` without throwing whenever it inspects it. -/
def lookupBodySafe (res : HttpResult) : Prop :=
  res.error = none → ∃ b, res.body = some (.jsonObj b)

/-- A token-endpoint response whose body `JSON.parse` accepts whenever the
refresh callback parses it. -/
def refreshBodySafe (res : RefreshHttp) : Prop :=
  res.error = none → ∀ s, res.body ≠ .noParse s

/-- A recheck lookup response that `recheck` can process without throwing:
the body is a JSON object and, when the branch is taken because of a
transport error, it carries the `error` property line 329 dereferences. -/
def recheckBodySafe (res : HttpResult) : Prop :=
  ∃ b, res.body = some (.jsonObj b) ∧ (res.error.isSome → b.errorField.isSome)

/-- A `JSON.parse` oracle that accepts every string it is given. -/
def parseTotal (env : ValidateEnv) : Prop :=
  ∀ s, env.jsonParse s ≠ none

/-- Every path of the reconciler performs at most two remote lookups and at
most one credential refresh. -/
theorem checkPurchaseStatus_bounds (st : GoogleState) (p : Payload) (opts : Options) (env : IapEnv) :
    (checkPurchaseStatus st p opts env).lookups ≤ 2
      ∧ (checkPurchaseStatus st p opts env).refreshes ≤ 1 := by
  unfold checkPurchaseStatus
  split
  · exact ⟨by simp, by simp⟩
  · split
    · exact ⟨by simp, by simp⟩
    · exact ⟨by simp, by simp⟩
    · split
      · exact ⟨by simp, by simp⟩
      · exact ⟨by simp, by simp⟩
      · split
        · exact ⟨by simp, by simp⟩
        · exact ⟨by simp, by simp⟩
        · exact ⟨by simp, by simp⟩

/-- C1: for every receipt and every behaviour of the remote endpoints, a
single `validatePurchase` call performs at most two remote purchase-status
lookups (`getPurchaseInfo`) and at most one credential refresh
(`refreshGoogleTokens`). -/
theorem validatePurchase_call_bounds (st : GoogleState) (dPubkey : Option String)
    (arg : ReceiptArg) (opts : Options) (env : ValidateEnv) :
    (validatePurchase st dPubkey arg opts env).lookups ≤ 2
      ∧ (validatePurchase st dPubkey arg opts env).refreshes ≤ 1 := by
  unfold validatePurchase
  cases arg with
  | notObject prim => exact ⟨by simp, by simp⟩
  | receiptObj r0 =>
    repeat' split
    all_goals first
      | exact checkPurchaseStatus_bounds st _ opts env.iap
      | exact ⟨by simp, by simp⟩

/-- Reduction of `validatePurchase` when the first verification attempt
succeeds: the reconciler's run is the result and the sandbox anchor is not
consulted. -/
theorem validatePurchase_of_first_verified (st : GoogleState) (dPubkey : Option String)
    (r0 : Receipt) (opts : Options) (env : ValidateEnv) (p : Payload)
    (hd : r0.data.truthy = true) (hs : r0.signature ≠ "")
    (hfirst : validatePublicKey (canonReceipt r0) (getPublicKey (firstPubkey st dPubkey)) env
      = .verified p) :
    validatePurchase st dPubkey (.receiptObj r0) opts env =
      ⟨(checkPurchaseStatus st p opts env.iap).outcome,
        (checkPurchaseStatus st p opts env.iap).lookups,
        (checkPurchaseStatus st p opts env.iap).refreshes,
        false, .receiptObj (canonReceipt r0)⟩ := by
  simp only [validatePurchase]
  rw [if_neg (by simp [hd, hs])]
  rw [hfirst]

/-- Reduction of `validatePurchase` when the first verification attempt
errors and no sandbox anchor is configured: the first attempt's error is
reported. -/
theorem validatePurchase_of_first_errored_no_sandbox (st : GoogleState) (dPubkey : Option String)
    (r0 : Receipt) (opts : Options) (env : ValidateEnv) (e : String)
    (hd : r0.data.truthy = true) (hs : r0.signature ≠ "")
    (hfirst : validatePublicKey (canonReceipt r0) (getPublicKey (firstPubkey st dPubkey)) env
      = .errored e)
    (hsb : strTruthy st.publicKeySandbox = false) :
    validatePurchase st dPubkey (.receiptObj r0) opts env =
      ⟨.called (.failure e ⟨.FAILURE, e⟩), 0, 0, false, .receiptObj (canonReceipt r0)⟩ := by
  simp only [validatePurchase]
  rw [if_neg (by simp [hd, hs])]
  rw [hfirst]
  simp [hsb]

/-- Reduction of `validatePurchase` when the first verification attempt
errors and the sandbox attempt errors too: the FIRST attempt's error is
reported, not the sandbox one. -/
theorem validatePurchase_of_both_errored (st : GoogleState) (dPubkey : Option String)
    (r0 : Receipt) (opts : Options) (env : ValidateEnv) (e e2 : String)
    (hd : r0.data.truthy = true) (hs : r0.signature ≠ "")
    (hfirst : validatePublicKey (canonReceipt r0) (getPublicKey (firstPubkey st dPubkey)) env
      = .errored e)
    (hsb : strTruthy st.publicKeySandbox = true)
    (hsnd : validatePublicKey (canonReceipt r0) (getPublicKey st.publicKeySandbox) env
      = .errored e2) :
    validatePurchase st dPubkey (.receiptObj r0) opts env =
      ⟨.called (.failure e ⟨.FAILURE, e⟩), 0, 0, true, .receiptObj (canonReceipt r0)⟩ := by
  simp only [validatePurchase]
  rw [if_neg (by simp [hd, hs])]
  rw [hfirst]
  simp [hsb, hsnd]

/-- The reconciler is a pass-through (module with the service tag) when
`checkPurchaseState` is false. -/
theorem checkPurchaseStatus_pass_through (st : GoogleState) (p : Payload) (opts : Options)
    (env : IapEnv) (h : st.checkPurchaseState = false) :
    checkPurchaseStatus st p opts env
      = ⟨.called (.success (serviceTagged p)), 0, 0, st.accessToken⟩ := by
  unfold checkPurchaseStatus
  rw [if_pos h]

/-- When reconciliation is on and the first lookup succeeds, exactly one
lookup and no refresh happen. -/
theorem checkPurchaseStatus_first_lookup_ok (st : GoogleState) (p : Payload) (opts : Options)
    (env : IapEnv) (h : st.checkPurchaseState = true) (hok : lookupOk env.lookup1) :
    (checkPurchaseStatus st p opts env).lookups = 1
      ∧ (checkPurchaseStatus st p opts env).refreshes = 0 := by
  obtain ⟨he, b, hb, hbe⟩ := hok
  unfold checkPurchaseStatus
  rw [if_neg (by simp [h])]
  simp [getSubInfoStep, he, hb, hbe]

/-- C3: on total verification failure the caller receives exactly the first
attempt's error — when no sandbox anchor is configured, and also when the
sandbox attempt fails with its own (possibly different) error. -/
theorem total_failure_reports_first_attempt_error (st : GoogleState) (dPubkey : Option String)
    (r0 : Receipt) (opts : Options) (env : ValidateEnv) (e : String)
    (hd : r0.data.truthy = true) (hs : r0.signature ≠ "")
    (hfirst : validatePublicKey (canonReceipt r0) (getPublicKey (firstPubkey st dPubkey)) env
      = .errored e) :
    (strTruthy st.publicKeySandbox = false →
      (validatePurchase st dPubkey (.receiptObj r0) opts env).outcome
        = .called (.failure e ⟨.FAILURE, e⟩))
    ∧ (∀ e2, validatePublicKey (canonReceipt r0) (getPublicKey st.publicKeySandbox) env
        = .errored e2 →
      (validatePurchase st dPubkey (.receiptObj r0) opts env).outcome
        = .called (.failure e ⟨.FAILURE, e⟩)) := by
  constructor
  · intro hsb
    rw [validatePurchase_of_first_errored_no_sandbox st dPubkey r0 opts env e hd hs hfirst hsb]
  · intro e2 hsnd
    cases hsb : strTruthy st.publicKeySandbox with
    | false =>
      rw [validatePurchase_of_first_errored_no_sandbox st dPubkey r0 opts env e hd hs hfirst hsb]
    | true =>
      rw [validatePurchase_of_both_errored st dPubkey r0 opts env e e2 hd hs hfirst hsb hsnd]

/-- Witness for C3 at a concrete input: with no anchors configured at all,
the first attempt fails with `missing public key` and that error is the
one reported, through both conjuncts of the theorem. -/
theorem total_failure_reports_first_attempt_error_witness :
    (validatePurchase ⟨none, none, false, none⟩ none (.receiptObj ⟨.str "x", "s"⟩) ⟨false⟩
        ⟨fun _ _ _ => .ok false, fun _ => none, ⟨⟨none, none⟩, ⟨none, .noParse ""⟩, ⟨none, none⟩⟩⟩).outcome
      = .called (.failure "missing public key" ⟨.FAILURE, "missing public key"⟩)
    ∧ (validatePurchase ⟨none, none, false, none⟩ none (.receiptObj ⟨.str "x", "s"⟩) ⟨false⟩
        ⟨fun _ _ _ => .ok false, fun _ => none, ⟨⟨none, none⟩, ⟨none, .noParse ""⟩, ⟨none, none⟩⟩⟩).outcome
      = .called (.failure "missing public key" ⟨.FAILURE, "missing public key"⟩) :=
  ⟨(total_failure_reports_first_attempt_error ⟨none, none, false, none⟩ none ⟨.str "x", "s"⟩ ⟨false⟩
      ⟨fun _ _ _ => .ok false, fun _ => none, ⟨⟨none, none⟩, ⟨none, .noParse ""⟩, ⟨none, none⟩⟩⟩
      "missing public key" (by decide) (by decide) rfl).1 rfl,
    (total_failure_reports_first_attempt_error ⟨none, none, false, none⟩ none ⟨.str "x", "s"⟩ ⟨false⟩
      ⟨fun _ _ _ => .ok false, fun _ => none, ⟨⟨none, none⟩, ⟨none, .noParse ""⟩, ⟨none, none⟩⟩⟩
      "missing public key" (by decide) (by decide) rfl).2 "missing public key" rfl⟩

/-- C2 counterexample: a receipt whose signature verifies against the live
key (first conjunct), with `checkPurchaseState` true, for which the call
performs TWO remote lookups — the first lookup returns an `error` body, a
refresh succeeds and the recheck looks the purchase up again — refuting
`exactly one remote lookup when checkPurchaseState is true`. -/
theorem live_verified_two_lookups_cex :
    validatePublicKey (canonReceipt ⟨.str "payload", "sig"⟩)
        (getPublicKey (firstPubkey ⟨some "LIVEKEY", none, true, some "oldtok"⟩ none))
        ⟨fun _ _ _ => .ok true, fun _ => some ⟨"pkg", "prod", "ptok", none, none, none, none⟩,
          ⟨⟨none, some (.jsonObj ⟨some (.strVal "invalid token"), none, none⟩)⟩,
            ⟨none, .parses none (some "newtok")⟩,
            ⟨none, some (.jsonObj ⟨none, some true, some "999"⟩)⟩⟩⟩
      = .verified ⟨"pkg", "prod", "ptok", some .SUCCESS, none, none, none⟩
    ∧ (validatePurchase ⟨some "LIVEKEY", none, true, some "oldtok"⟩ none
        (.receiptObj ⟨.str "payload", "sig"⟩) ⟨true⟩
        ⟨fun _ _ _ => .ok true, fun _ => some ⟨"pkg", "prod", "ptok", none, none, none, none⟩,
          ⟨⟨none, some (.jsonObj ⟨some (.strVal "invalid token"), none, none⟩)⟩,
            ⟨none, .parses none (some "newtok")⟩,
            ⟨none, some (.jsonObj ⟨none, some true, some "999"⟩)⟩⟩⟩).lookups = 2 :=
  ⟨rfl, rfl⟩

/-- C2 as amended: when verification succeeds against the live key (no
dynamic override), the sandbox key is never consulted, zero lookups happen
when `checkPurchaseState` is false, and exactly one lookup happens when
`checkPurchaseState` is true AND the first lookup itself succeeds. -/
theorem live_success_sandbox_unconsulted_lookup_count (st : GoogleState)
    (dPubkey : Option String) (r0 : Receipt) (opts : Options) (env : ValidateEnv) (p : Payload)
    (hd : r0.data.truthy = true) (hs : r0.signature ≠ "")
    (hdk : strTruthy dPubkey = false)
    (hlive : validatePublicKey (canonReceipt r0) (getPublicKey st.publicKeyLive) env
      = .verified p) :
    (validatePurchase st dPubkey (.receiptObj r0) opts env).sandboxConsulted = false
    ∧ (st.checkPurchaseState = false →
        (validatePurchase st dPubkey (.receiptObj r0) opts env).lookups = 0)
    ∧ (st.checkPurchaseState = true → lookupOk env.iap.lookup1 →
        (validatePurchase st dPubkey (.receiptObj r0) opts env).lookups = 1) := by
  have hfp : firstPubkey st dPubkey = st.publicKeyLive := by
    simp [firstPubkey, hdk]
  have hred := validatePurchase_of_first_verified st dPubkey r0 opts env p hd hs
    (by rw [hfp]; exact hlive)
  rw [hred]
  refine ⟨rfl, ?_, ?_⟩
  · intro hcps
    show (checkPurchaseStatus st p opts env.iap).lookups = 0
    rw [checkPurchaseStatus_pass_through st p opts env.iap hcps]
  · intro hcps hok
    show (checkPurchaseStatus st p opts env.iap).lookups = 1
    exact (checkPurchaseStatus_first_lookup_ok st p opts env.iap hcps hok).1

/-- Witness for the amended C2 at a concrete input: live verification
succeeds, the first lookup succeeds, and exactly one lookup happens with
the sandbox never consulted. -/
theorem live_success_sandbox_unconsulted_lookup_count_witness :
    (validatePurchase ⟨some "LIVEKEY", none, true, some "tok"⟩ none
        (.receiptObj ⟨.str "payload", "sig"⟩) ⟨false⟩
        ⟨fun _ _ _ => .ok true, fun _ => some ⟨"pkg", "prod", "ptok", none, none, none, none⟩,
          ⟨⟨none, some (.jsonObj ⟨none, some false, some "1"⟩)⟩,
            ⟨none, .parses none (some "t2")⟩,
            ⟨none, some (.jsonObj ⟨none, some false, some "2"⟩)⟩⟩⟩).sandboxConsulted = false
    ∧ (validatePurchase ⟨some "LIVEKEY", none, true, some "tok"⟩ none
        (.receiptObj ⟨.str "payload", "sig"⟩) ⟨false⟩
        ⟨fun _ _ _ => .ok true, fun _ => some ⟨"pkg", "prod", "ptok", none, none, none, none⟩,
          ⟨⟨none, some (.jsonObj ⟨none, some false, some "1"⟩)⟩,
            ⟨none, .parses none (some "t2")⟩,
            ⟨none, some (.jsonObj ⟨none, some false, some "2"⟩)⟩⟩⟩).lookups = 1 :=
  ⟨(live_success_sandbox_unconsulted_lookup_count ⟨some "LIVEKEY", none, true, some "tok"⟩ none
      ⟨.str "payload", "sig"⟩ ⟨false⟩
      ⟨fun _ _ _ => .ok true, fun _ => some ⟨"pkg", "prod", "ptok", none, none, none, none⟩,
        ⟨⟨none, some (.jsonObj ⟨none, some false, some "1"⟩)⟩,
          ⟨none, .parses none (some "t2")⟩,
          ⟨none, some (.jsonObj ⟨none, some false, some "2"⟩)⟩⟩⟩
      ⟨"pkg", "prod", "ptok", some .SUCCESS, none, none, none⟩
      (by decide) (by decide) rfl rfl).1,
    (live_success_sandbox_unconsulted_lookup_count ⟨some "LIVEKEY", none, true, some "tok"⟩ none
      ⟨.str "payload", "sig"⟩ ⟨false⟩
      ⟨fun _ _ _ => .ok true, fun _ => some ⟨"pkg", "prod", "ptok", none, none, none, none⟩,
        ⟨⟨none, some (.jsonObj ⟨none, some false, some "1"⟩)⟩,
          ⟨none, .parses none (some "t2")⟩,
          ⟨none, some (.jsonObj ⟨none, some false, some "2"⟩)⟩⟩⟩
      ⟨"pkg", "prod", "ptok", some .SUCCESS, none, none, none⟩
      (by decide) (by decide) rfl rfl).2.2 rfl
      ⟨rfl, ⟨⟨none, some false, some "1"⟩, rfl, rfl⟩⟩⟩

/-- C4: when the first remote lookup fails without throwing and the
credential refresh itself errors — a transport error or an `error`
property in the token-endpoint body — the reconciliation aborts with that
refresh error and a `FAILURE` envelope, having performed exactly one
lookup (no recheck) and one refresh attempt. -/
theorem refresh_error_aborts_reconciliation (st : GoogleState) (data : Payload)
    (opts : Options) (env : IapEnv) (hcps : st.checkPurchaseState = true)
    (hfail : getSubInfoStep opts.subscription (serviceTagged data) env.lookup1 = .failed) :
    (∀ e, env.refreshResult.error = some e →
      checkPurchaseStatus st data opts env
        = ⟨.called (.failure e ⟨.FAILURE, e⟩), 1, 1, st.accessToken⟩)
    ∧ (∀ v tok, env.refreshResult.error = none →
        env.refreshResult.body = .parses (some v) tok →
      checkPurchaseStatus st data opts env
        = ⟨.called (.failure v.toMessage ⟨.FAILURE, v.toMessage⟩), 1, 1, st.accessToken⟩) := by
  constructor
  · intro e he
    unfold checkPurchaseStatus
    rw [if_neg (by simp [hcps])]
    rw [hfail]
    simp [refreshStep, he]
  · intro v tok he hb
    unfold checkPurchaseStatus
    rw [if_neg (by simp [hcps])]
    rw [hfail]
    simp [refreshStep, he, hb]

/-- Witness for C4 at a concrete input: the first lookup dies with a
transport error, the refresh dies with a transport error, and the run
aborts with the refresh error after one lookup and one refresh. -/
theorem refresh_error_aborts_reconciliation_witness :
    checkPurchaseStatus ⟨none, none, true, some "t"⟩
        ⟨"pkg", "prod", "ptok", none, none, none, none⟩ ⟨false⟩
        ⟨⟨some "boom", none⟩, ⟨some "refresh failed", .noParse ""⟩, ⟨none, none⟩⟩
      = ⟨.called (.failure "refresh failed" ⟨.FAILURE, "refresh failed"⟩), 1, 1, some "t"⟩ :=
  (refresh_error_aborts_reconciliation ⟨none, none, true, some "t"⟩
      ⟨"pkg", "prod", "ptok", none, none, none, none⟩ ⟨false⟩
      ⟨⟨some "boom", none⟩, ⟨some "refresh failed", .noParse ""⟩, ⟨none, none⟩⟩
      rfl rfl).1 "refresh failed" rfl

/-- C5 counterexample: with `checkPurchaseState` false the reconciler does
pass the payload back with a null error and no remote calls, but NOT
unchanged — the `service` property is written first, so a payload with no
`service` comes back different. -/
theorem pass_through_sets_service_cex :
    checkPurchaseStatus ⟨none, none, false, none⟩
        ⟨"pkg", "prod", "ptok", none, none, none, none⟩ ⟨false⟩
        ⟨⟨none, none⟩, ⟨none, .noParse ""⟩, ⟨none, none⟩⟩
      = ⟨.called (.success ⟨"pkg", "prod", "ptok", none, some "google", none, none⟩), 0, 0, none⟩
    ∧ (⟨"pkg", "prod", "ptok", none, some "google", none, none⟩ : Payload)
        ≠ ⟨"pkg", "prod", "ptok", none, none, none, none⟩ :=
  ⟨rfl, by decide⟩

/-- C5 as amended: with `checkPurchaseState` false the reconciler returns
the payload with its `service` field set to the GOOGLE service constant
and every other field unchanged, with a null error, no remote calls and
the access token untouched. -/
theorem reconciler_pass_through_sets_service_only (st : GoogleState) (p : Payload)
    (opts : Options) (env : IapEnv) (h : st.checkPurchaseState = false) :
    checkPurchaseStatus st p opts env
      = ⟨.called (.success { p with service := some SERVICE_GOOGLE }), 0, 0, st.accessToken⟩ :=
  checkPurchaseStatus_pass_through st p opts env h

/-- Witness for the amended C5 at a concrete input. -/
theorem reconciler_pass_through_sets_service_only_witness :
    checkPurchaseStatus ⟨some "k", none, false, some "a"⟩
        ⟨"p", "i", "t", none, some "other", some true, some "9"⟩ ⟨true⟩
        ⟨⟨some "x", none⟩, ⟨none, .parses none none⟩, ⟨none, none⟩⟩
      = ⟨.called (.success ⟨"p", "i", "t", none, some "google", some true, some "9"⟩),
          0, 0, some "a"⟩ :=
  reconciler_pass_through_sets_service_only ⟨some "k", none, false, some "a"⟩
    ⟨"p", "i", "t", none, some "other", some true, some "9"⟩ ⟨true⟩
    ⟨⟨some "x", none⟩, ⟨none, .parses none none⟩, ⟨none, none⟩⟩ rfl

/-- C6 counterexample: a config string for the live environment alone makes
`setup` return from the string branch immediately, so the sandbox key is
left unset even though both a readable sandbox key file and a non-empty
sandbox environment variable exist — refuting `a source present for one
environment does not prevent a lower-precedence source from supplying the
other environment's key` (and with it per-environment precedence). -/
theorem setup_string_blocks_other_env_cex :
    setup ⟨true, none, some "LK", some "/keys/", some "SK", none, some "FSK", none⟩ ⟨none, none⟩
      = ⟨none, some "LK"⟩
    ∧ strTruthy (some "SK") = true
    ∧ (⟨true, none, some "LK", some "/keys/", some "SK", none, some "FSK",
        none⟩ : SetupSources).fileSandbox = some "FSK" :=
  ⟨rfl, rfl, rfl⟩

/-- C6 as amended: `setup` resolves key material by source class — explicit
config strings if any is present, else key files when a path is
configured, else environment variables — and within the chosen class each
environment's key is set only if that environment's own source is
present.  The refinement equates the embedded `setup` with the
class-chooser reading of the amended claim on every input. -/
theorem setup_resolves_by_source_class (src : SetupSources) (m : PublicKeyMap) :
    setup src m = applyClass (chooseClass src) src m := by
  by_cases h1 : (src.configPresent
      && (strTruthy src.googlePublicKeyStrSandbox || strTruthy src.googlePublicKeyStrLive)) = true
  · have hcc : chooseClass src = .strings := by
      unfold chooseClass
      rw [if_pos h1]
    have hcp : src.configPresent = true := by
      cases h : src.configPresent
      · rw [h] at h1
        simp at h1
      · rfl
    rw [hcc]
    unfold setup applyClass
    rw [if_pos h1, hcp]
    simp only [Bool.true_and]
    by_cases h2 : strTruthy src.googlePublicKeyStrSandbox = true <;>
      by_cases h3 : strTruthy src.googlePublicKeyStrLive = true <;>
        simp [h2, h3]
  · by_cases h2 : (src.configPresent && strTruthy src.googlePublicKeyPath) = true
    · have hcc : chooseClass src = .files := by
        unfold chooseClass
        rw [if_neg h1, if_pos h2]
      have hcp : src.configPresent = true := by
        cases h : src.configPresent
        · rw [h] at h2
          simp at h2
        · rfl
      have hpp : strTruthy src.googlePublicKeyPath = true := by
        cases h : strTruthy src.googlePublicKeyPath
        · rw [h] at h2
          simp at h2
        · rfl
      rw [hcc]
      unfold setup applyClass
      rw [if_neg h1]
      rw [if_neg (by simp [hcp, hpp])]
      rcases hfs : src.fileSandbox with _ | cs <;> rcases hfl : src.fileLive with _ | cl <;>
        simp [hfs, hfl]
    · have hcc : chooseClass src = .envvars := by
        unfold chooseClass
        rw [if_neg h1, if_neg h2]
      have henv : (!src.configPresent || !strTruthy src.googlePublicKeyPath) = true := by
        cases hc : src.configPresent <;> cases hp : strTruthy src.googlePublicKeyPath <;>
          simp_all
      rw [hcc]
      unfold setup applyClass
      rw [if_neg h1, if_pos henv]
      rcases hes : src.envSandbox with _ | v1 <;> rcases hel : src.envLive with _ | v2 <;>
        simp [hes, hel] <;>
        (first
          | rfl
          | (split_ifs <;> simp_all))

/-- C7 counterexample: with credentials configured, a token-endpoint
response whose body is not JSON makes `refreshToken` throw out of
`JSON.parse` instead of invoking its callback. -/
theorem refreshToken_nonjson_body_throws_cex :
    (refreshToken ⟨none, none, true, some "at"⟩ ⟨none, .noParse "<html>"⟩).outcome
      = .thrown "SyntaxError: JSON.parse on a non-JSON token response" :=
  rfl

/-- Under a total `JSON.parse` oracle, `validatePublicKey` never throws. -/
theorem validatePublicKey_not_thrown (r : Receipt) (pkey : Option String)
    (env : ValidateEnv) (hparse : parseTotal env) (m : String) :
    validatePublicKey r pkey env ≠ .thrown m := by
  unfold validatePublicKey
  repeat' split
  all_goals simp_all [parseTotal]

/-- `getSubInfo` cannot throw when every successful transport hands it a
JSON-object body. -/
theorem getSubInfoStep_not_thrown (isSub : Bool) (data : Payload) (res : HttpResult)
    (h : lookupBodySafe res) (m : String) :
    getSubInfoStep isSub data res ≠ .throwExn m := by
  unfold getSubInfoStep
  repeat' split
  all_goals simp_all [lookupBodySafe]

/-- The refresh callback cannot throw when the token-endpoint body parses
whenever it is parsed. -/
theorem refreshStep_not_thrown (res : RefreshHttp) (h : refreshBodySafe res) (m : String) :
    refreshStep res ≠ .throwExn m := by
  unfold refreshStep
  repeat' split
  all_goals simp_all [refreshBodySafe]

/-- `recheck` cannot throw when its lookup body is a JSON object carrying
an `error` property on the transport-error path. -/
theorem recheckStep_not_thrown (isSub : Bool) (data : Payload) (res : HttpResult)
    (h : recheckBodySafe res) (m : String) :
    recheckStep isSub data res ≠ .throwExn m := by
  unfold recheckStep
  repeat' split
  all_goals simp_all [recheckBodySafe]

/-- The reconciler never throws under the body-safety conditions on the
three remote responses. -/
theorem checkPurchaseStatus_not_thrown (st : GoogleState) (p : Payload) (opts : Options)
    (env : IapEnv) (hl1 : lookupBodySafe env.lookup1) (hrf : refreshBodySafe env.refreshResult)
    (hl2 : recheckBodySafe env.lookup2) :
    (checkPurchaseStatus st p opts env).outcome.isThrown = false := by
  unfold checkPurchaseStatus
  split
  · rfl
  · cases hg : getSubInfoStep opts.subscription (serviceTagged p) env.lookup1 with
    | throwExn m => exact absurd hg (getSubInfoStep_not_thrown _ _ _ hl1 m)
    | succeeded d => rfl
    | failed =>
      cases hr : refreshStep env.refreshResult with
      | throwExn m => exact absurd hr (refreshStep_not_thrown _ hrf m)
      | aborted e => rfl
      | refreshed tok =>
        cases hc : recheckStep opts.subscription (serviceTagged p) env.lookup2 with
        | throwExn m => exact absurd hc (recheckStep_not_thrown _ _ _ hl2 m)
        | failed e => rfl
        | succeeded d => rfl

/-- C7 as amended: `refreshToken` and `validatePurchase` report every
failure through the `(error, result)` callback — provided the
token-endpoint body is valid JSON when parsed, the verified receipt data
parses as JSON, lookup bodies are JSON objects, and a recheck that fails
with a transport error has an `error` property in its body; outside those
conditions (see the counterexample) an exception escapes instead. -/
theorem errors_reported_via_callback_under_safe_bodies :
    (∀ (st : GoogleState) (res : RefreshHttp), refreshBodySafe res →
      (refreshToken st res).outcome.isThrown = false)
    ∧ (∀ (st : GoogleState) (dPubkey : Option String) (arg : ReceiptArg) (opts : Options)
        (env : ValidateEnv), parseTotal env → lookupBodySafe env.iap.lookup1 →
        refreshBodySafe env.iap.refreshResult → recheckBodySafe env.iap.lookup2 →
      (validatePurchase st dPubkey arg opts env).outcome.isThrown = false) := by
  constructor
  · intro st res hsafe
    unfold refreshToken
    split
    · rfl
    · cases he : res.error with
      | some e => rfl
      | none =>
        cases hb : res.body with
        | noParse s => exact absurd hb (hsafe he s)
        | parses ef tok => cases ef <;> rfl
  · intro st dPubkey arg opts env hparse hl1 hrf hl2
    cases arg with
    | notObject prim => rfl
    | receiptObj r0 =>
      simp only [validatePurchase]
      split
      · rfl
      · split
        · rename_i m heq
          exact absurd heq (validatePublicKey_not_thrown _ _ _ hparse m)
        · exact checkPurchaseStatus_not_thrown st _ opts env.iap hl1 hrf hl2
        · split
          · rfl
          · split
            · rename_i m heq
              exact absurd heq (validatePublicKey_not_thrown _ _ _ hparse m)
            · rfl
            · exact checkPurchaseStatus_not_thrown st _ opts env.iap hl1 hrf hl2

/-- Witness for the amended C7 at concrete inputs: a refresh with a JSON
body and a full validation run against well-behaved endpoints both end in
the callback, not in a throw. -/
theorem errors_reported_via_callback_under_safe_bodies_witness :
    (refreshToken ⟨none, none, true, some "a"⟩
        ⟨none, .parses none (some "b")⟩).outcome.isThrown = false
    ∧ (validatePurchase ⟨some "LIVEKEY", none, true, some "tok"⟩ none
        (.receiptObj ⟨.str "payload", "sig"⟩) ⟨false⟩
        ⟨fun _ _ _ => .ok true, fun _ => some ⟨"pkg", "prod", "ptok", none, none, none, none⟩,
          ⟨⟨none, some (.jsonObj ⟨none, some false, some "1"⟩)⟩,
            ⟨none, .parses none (some "t2")⟩,
            ⟨none, some (.jsonObj ⟨none, some false, some "2"⟩)⟩⟩⟩).outcome.isThrown = false :=
  ⟨errors_reported_via_callback_under_safe_bodies.1 ⟨none, none, true, some "a"⟩
      ⟨none, .parses none (some "b")⟩
      (fun _ s h => TokenBody.noConfusion h),
    errors_reported_via_callback_under_safe_bodies.2 ⟨some "LIVEKEY", none, true, some "tok"⟩
      none (.receiptObj ⟨.str "payload", "sig"⟩) ⟨false⟩
      ⟨fun _ _ _ => .ok true, fun _ => some ⟨"pkg", "prod", "ptok", none, none, none, none⟩,
        ⟨⟨none, some (.jsonObj ⟨none, some false, some "1"⟩)⟩,
          ⟨none, .parses none (some "t2")⟩,
          ⟨none, some (.jsonObj ⟨none, some false, some "2"⟩)⟩⟩⟩
      (fun s h => Option.noConfusion h)
      (fun _ => ⟨⟨none, some false, some "1"⟩, rfl⟩)
      (fun _ s h => TokenBody.noConfusion h)
      ⟨⟨none, some false, some "2"⟩, rfl, fun h => by simp at h⟩⟩

/-- C8 counterexample: the two objects hold the same key/value pairs
(second is a permutation of the first), yet canonicalization — being
`JSON.stringify` in property insertion order — produces different strings,
refuting determinism modulo key order. -/
theorem canonicalization_key_order_sensitive_cex :
    ([("a", Json.num 1), ("b", Json.num 2)] : List (String × Json)).Perm
        [("b", Json.num 2), ("a", Json.num 1)]
    ∧ canonicalizeJson (.obj [("a", .num 1), ("b", .num 2)])
        ≠ canonicalizeJson (.obj [("b", .num 2), ("a", .num 1)]) := by
  constructor
  · exact List.Perm.swap ("b", Json.num 2) ("a", Json.num 1) []
  · decide

/-- C8 as amended: canonicalization of receipt data is a pure function of
the object's ordered key/value sequence — key order is significant — and
it is idempotent, acting as the identity on data that is already a
string. -/
theorem canonicalization_idempotent_identity_on_strings :
    (∀ j : Json, canonicalizeData (canonicalizeData j) = canonicalizeData j)
    ∧ (∀ s : String, canonicalizeData (.str s) = .str s) := by
  constructor
  · intro j
    cases j <;> simp [canonicalizeData, Json.typeofObject]
  · intro s
    rfl

/-- C9 counterexample: a receipt whose `data` is an object but whose
`signature` is empty is rejected by the structural check before the
canonicalization line runs, so the caller's receipt keeps its object
`data` and is NOT overwritten with the canonical string. -/
theorem receipt_data_not_overwritten_on_missing_signature_cex :
    (validatePurchase ⟨some "K", none, false, none⟩ none
        (.receiptObj ⟨.obj [("a", .num 1)], ""⟩) ⟨false⟩
        ⟨fun _ _ _ => .ok false, fun _ => none,
          ⟨⟨none, none⟩, ⟨none, .noParse ""⟩, ⟨none, none⟩⟩⟩).receiptAfter
      = .receiptObj ⟨.obj [("a", .num 1)], ""⟩
    ∧ Json.typeofObject (.obj [("a", .num 1)]) = true
    ∧ Json.obj [("a", .num 1)] ≠ .str (canonicalizeJson (.obj [("a", .num 1)])) := by
  refine ⟨rfl, rfl, ?_⟩
  intro h
  exact Json.noConfusion h

/-- C9 as amended: for every receipt whose `data` is object-typed, truthy,
and accompanied by a non-empty signature, `validatePurchase` overwrites
the caller's `receipt.data` in place with the canonicalized string before
verification, visibly to the caller after the call, whatever the
endpoints do. -/
theorem receipt_data_overwritten_in_place (st : GoogleState) (dPubkey : Option String)
    (r0 : Receipt) (opts : Options) (env : ValidateEnv)
    (hobj : r0.data.typeofObject = true) (hd : r0.data.truthy = true) (hs : r0.signature ≠ "") :
    (validatePurchase st dPubkey (.receiptObj r0) opts env).receiptAfter
      = .receiptObj ⟨.str (canonicalizeJson r0.data), r0.signature⟩ := by
  simp only [validatePurchase]
  rw [if_neg (by simp [hd, hs])]
  have hc : canonReceipt r0 = ⟨.str (canonicalizeJson r0.data), r0.signature⟩ := by
    simp [canonReceipt, canonicalizeData, hobj]
  repeat' split
  all_goals simp [hc]

/-- Witness for the amended C9 at a concrete input: an object-typed `data`
with a non-empty signature comes back as the canonical string. -/
theorem receipt_data_overwritten_in_place_witness :
    (validatePurchase ⟨some "K", none, false, none⟩ none
        (.receiptObj ⟨.obj [("a", .num 1)], "sig"⟩) ⟨false⟩
        ⟨fun _ _ _ => .ok false, fun _ => none,
          ⟨⟨none, none⟩, ⟨none, .noParse ""⟩, ⟨none, none⟩⟩⟩).receiptAfter
      = .receiptObj ⟨.str (canonicalizeJson (.obj [("a", .num 1)])), "sig"⟩ :=
  receipt_data_overwritten_in_place ⟨some "K", none, false, none⟩ none
    ⟨.obj [("a", .num 1)], "sig"⟩ ⟨false⟩
    ⟨fun _ _ _ => .ok false, fun _ => none,
      ⟨⟨none, none⟩, ⟨none, .noParse ""⟩, ⟨none, none⟩⟩⟩
    rfl rfl (by decide)

/-- C10: key material read from a file is stripped of ALL trailing
whitespace, key material read from the environment is stripped only of
trailing literal `s` characters, and therefore an environment-sourced key
ending in a whitespace character keeps that character. -/
theorem key_material_stripping_asymmetry :
    (∀ (src : SetupSources) (m : PublicKeyMap) (content : String),
      (src.configPresent
        && (strTruthy src.googlePublicKeyStrSandbox
          || strTruthy src.googlePublicKeyStrLive)) = false →
      (!src.configPresent || !strTruthy src.googlePublicKeyPath) = false →
      src.fileSandbox = some content →
      (setup src m).sandbox = some (stripFileKey content))
    ∧ (∀ (src : SetupSources) (m : PublicKeyMap) (v : String),
      (src.configPresent
        && (strTruthy src.googlePublicKeyStrSandbox
          || strTruthy src.googlePublicKeyStrLive)) = false →
      (!src.configPresent || !strTruthy src.googlePublicKeyPath) = true →
      src.envSandbox = some v → v ≠ "" →
      (setup src m).sandbox = some (stripEnvKey v))
    ∧ (∀ (l : List Char) (c : Char), isJsWhitespace c = true →
      stripEnvKey (String.mk (l ++ [c])) = String.mk (l ++ [c])) := by
  refine ⟨?_, ?_, ?_⟩
  · intro src m content h1 h2 hf
    unfold setup
    rw [if_neg (by simp [h1])]
    rw [if_neg (by simp [h2])]
    rcases hfl : src.fileLive with _ | cl <;> simp [hf, hfl]
  · intro src m v h1 h2 he hv
    unfold setup
    rw [if_neg (by simp [h1]), if_pos h2]
    rcases hel : src.envLive with _ | v2 <;> simp [he, hel, hv] <;>
      (first
        | rfl
        | (split_ifs <;> simp))
  · intro l c hc
    have hcs : c ≠ 's' := by
      intro he
      rw [he] at hc
      exact absurd hc (by decide)
    unfold stripEnvKey dropTrailing
    simp [List.dropWhile_cons, hcs]

/-- Witness for C10 at concrete inputs: a sandbox key file ending in a
space and a newline comes back fully stripped, while a sandbox
environment variable ending in a space keeps the space (only a trailing
`s` would be stripped), and the stripping function itself preserves a
trailing whitespace character. -/
theorem key_material_stripping_asymmetry_witness :
    (setup ⟨true, none, none, some "/k/", none, none, some "KEY \n", none⟩ ⟨none, none⟩).sandbox
      = some "KEY"
    ∧ (setup ⟨false, none, none, none, some "KEYs ", none, none, none⟩ ⟨none, none⟩).sandbox
      = some "KEYs "
    ∧ stripEnvKey (String.mk ("KEY".data ++ [' '])) = String.mk ("KEY".data ++ [' ']) := by
  refine ⟨?_, ?_, ?_⟩
  · rw [key_material_stripping_asymmetry.1
      ⟨true, none, none, some "/k/", none, none, some "KEY \n", none⟩ ⟨none, none⟩
      "KEY \n" rfl rfl rfl]
    decide
  · rw [key_material_stripping_asymmetry.2.1
      ⟨false, none, none, none, some "KEYs ", none, none, none⟩ ⟨none, none⟩
      "KEYs " rfl rfl rfl (by decide)]
    decide
  · exact key_material_stripping_asymmetry.2.2 "KEY".data ' ' (by decide)

end Google
